import Mathlib

/-!
Verification of the liveness/recovery supervisor and fallback-screen state
machine of the azv-native repository, as a shallow embedding in Lean 4.

The recovery supervisor is embedded from the `AZVWebViewInner` component:
its mutable refs and state hooks (`lastReloadRef`, `reloadAttemptsRef`,
`webKey`, `pongCounterRef`, `isLoading`, the nullability of `webViewRef`)
become a record `SupState`, and each handler becomes a function
`SupState → SupState × List Cmd`, where `Cmd` records the commands issued
to the renderer or to the fallback UI.  Times are naturals (milliseconds,
as returned by `Date.now()`); the JavaScript comparison
`now - last < 1500` agrees with truncated `Nat` subtraction whenever
`last ≤ now`, and both sides drop the request when `now < last`.

The fallback screen state machine is embedded from
`ConnectionManagerWrapper.tsx`, and the navigation guard from
`WebViewService.handleNavigationRequest`.
-/

namespace AZV

/-- Commands the supervisor can issue: ask the existing renderer instance to
reload in place (`webViewRef.current.reload()`), recreate the renderer
surface (the `setWebKey (k + 1)` remount), inject a script (the heartbeat
probe message), or request the fallback connection-error screen. -/
inductive Cmd
  | reloadInPlace
  | recreateSurface
  | injectScript
  | showConnectionError
  deriving DecidableEq, Repr

/-- Supervisor state: the refs and state hooks of `AZVWebViewInner`.
`lastReload` is `lastReloadRef.current`, `reloadAttempts` is
`reloadAttemptsRef.current`, `webKey` is the remount key, `pongCounter` is
`pongCounterRef.current`, `isLoading` the splash flag, and
`webViewPresent` records whether `webViewRef.current` is non-null. -/
structure SupState where
  lastReload : Nat
  reloadAttempts : Nat
  webKey : Nat
  pongCounter : Nat
  isLoading : Bool
  webViewPresent : Bool
  deriving DecidableEq, Repr

/-- Debounce window of `safeReload` (milliseconds): `now - lastReloadRef.current < 1500`. -/
def debounceMs : Nat := 1500

/-- Escalation threshold of `safeReload`: `reloadAttemptsRef.current >= 3`. -/
def escalationThreshold : Nat := 3

/-- `hardRemount`: `setIsLoading(true); setWebKey(k => k + 1)` — recreate the surface. -/
def hardRemount (s : SupState) : SupState × List Cmd :=
  ({ s with isLoading := true, webKey := s.webKey + 1 }, [Cmd.recreateSurface])

/-- `softReload`: `setIsLoading(true)`, then reload in place if the renderer
reference is non-null, otherwise fall back to `hardRemount`. -/
def softReload (s : SupState) : SupState × List Cmd :=
  let s1 : SupState := { s with isLoading := true }
  if s.webViewPresent = true then (s1, [Cmd.reloadInPlace]) else hardRemount s1

/-- `safeReload(hard)`: drop the request inside the 1500 ms debounce window;
otherwise record the time, bump the attempt counter, and either hard-remount
(resetting the counter) when forced or at the escalation threshold, or
soft-reload. -/
def safeReload (hard : Bool) (now : Nat) (s : SupState) : SupState × List Cmd :=
  if now - s.lastReload < debounceMs then (s, [])
  else
    let s1 : SupState := { s with lastReload := now, reloadAttempts := s.reloadAttempts + 1 }
    if hard = true ∨ escalationThreshold ≤ s1.reloadAttempts then
      hardRemount { s1 with reloadAttempts := 0 }
    else
      softReload s1

/-- `onContentProcessDidTerminate`: `safeReload(true)` — forced hard, debounced. -/
def onContentProcessDidTerminate (now : Nat) (s : SupState) : SupState × List Cmd :=
  safeReload true now s

/-- `onRenderProcessGone`: if `e.nativeEvent.didCrash` then `hardRemount()`
else `softReload()` — note: calls the actions directly, not `safeReload`. -/
def onRenderProcessGone (didCrash : Bool) (s : SupState) : SupState × List Cmd :=
  if didCrash = true then hardRemount s else softReload s

/-- `onHttpError`: read `statusCode` (absent in JavaScript behaves as neither
`>= 500` nor `=== 0`); on `status >= 500 || status === 0` call `safeReload()`,
otherwise do nothing (4xx left to the page). -/
def onHttpError (status : Option Int) (now : Nat) (s : SupState) : SupState × List Cmd :=
  match status with
  | some c => if 500 ≤ c ∨ c = 0 then safeReload false now s else (s, [])
  | none => (s, [])

/-- `handleWebViewLoadEnd`: `reloadAttemptsRef.current = 0` (then delegates to
`webViewService.handleLoadEnd`, outside this state). -/
def handleWebViewLoadEnd (s : SupState) : SupState × List Cmd :=
  ({ s with reloadAttempts := 0 }, [])

/-- A raw message from the renderer, after the `JSON.parse` attempt of
`handleMessage`: a parsed object with `t === "pong"` carrying some token, a
parsed object with a different shape, or unparseable text. -/
inductive RawMessage
  | pong (token : String)
  | other
  | malformed
  deriving DecidableEq, Repr

/-- `handleMessage`: a parsed `pong` increments `pongCounterRef` and is not
forwarded; anything else (other parsed shapes, parse failures) is forwarded
to `webViewService.handleWebViewMessage`.  The second component records
whether the message was forwarded. -/
def handleMessage (s : SupState) : RawMessage → SupState × Bool
  | RawMessage.pong _ => ({ s with pongCounter := s.pongCounter + 1 }, false)
  | RawMessage.other => (s, true)
  | RawMessage.malformed => (s, true)

/-- Delay of the heartbeat verdict timer: `setTimeout(..., 1200)`. -/
def heartbeatTimerMs : Nat := 1200

/-- The `AppState` "active" handler, before the timer fires: snapshot
`before = pongCounterRef.current` and inject one probe message through the
optional chain `webViewRef.current?.injectJavaScript` — with a null renderer
reference nothing is injected.  Returns the unchanged state, the snapshot,
and the injected commands. -/
def appStateActiveProbe (s : SupState) : SupState × Nat × List Cmd :=
  (s, s.pongCounter, if s.webViewPresent = true then [Cmd.injectScript] else [])

/-- The heartbeat verdict, 1200 ms later: if `pongCounterRef.current` still
equals the snapshot, call `safeReload()`; otherwise do nothing. -/
def heartbeatTimeout (before : Nat) (now : Nat) (s : SupState) : SupState × List Cmd :=
  if s.pongCounter = before then safeReload false now s else (s, [])

/-- Events delivered to the supervisor.  `request` is a direct `safeReload`
call; `renderGone` carries its arrival time only to state timing properties —
the handler itself never reads the clock. -/
inductive Event
  | request (hard : Bool) (now : Nat)
  | contentTerminate (now : Nat)
  | renderGone (didCrash : Bool) (now : Nat)
  | httpStatus (status : Option Int) (now : Nat)
  | loadEnd
  | message (m : RawMessage)
  | hbTimeout (before : Nat) (now : Nat)

/-- One supervisor step: dispatch an event to its handler. -/
def step (s : SupState) : Event → SupState × List Cmd
  | Event.request hard now => safeReload hard now s
  | Event.contentTerminate now => onContentProcessDidTerminate now s
  | Event.renderGone didCrash _ => onRenderProcessGone didCrash s
  | Event.httpStatus status now => onHttpError status now s
  | Event.loadEnd => handleWebViewLoadEnd s
  | Event.message m => ((handleMessage s m).1, [])
  | Event.hbTimeout before now => heartbeatTimeout before now s

/-- Screen of `ConnectionManagerWrapper`: `'webview' | 'connection-error' |
'manual-instructions'`. -/
inductive ScreenType
  | webview
  | connectionError
  | manualInstructions
  deriving DecidableEq, Repr

/-- Connection status snapshot as read by the wrapper's listener:
`isConnected` and the optional `loadingTime` (milliseconds).  JavaScript
truthiness of `status.loadingTime` is: present and non-zero. -/
structure ConnectionStatus where
  isConnected : Bool
  loadingTime : Option Nat
  deriving DecidableEq, Repr

/-- JavaScript truthiness of an optional numeric field: present and non-zero. -/
def truthyTime : Option Nat → Bool
  | none => false
  | some t => !(t == 0)

/-- Secondary slow-load threshold used by the listener (5000 ms). -/
def screenSlowMs : Nat := 5000

/-- `status.loadingTime && status.loadingTime > 5000`. -/
def slowBeyondSecondary (o : Option Nat) : Bool :=
  truthyTime o && (match o with | none => false | some t => decide (screenSlowMs < t))

/-- `status.isConnected && status.loadingTime && status.loadingTime <= 5000`. -/
def goodWithinSecondary (st : ConnectionStatus) : Bool :=
  st.isConnected && truthyTime st.loadingTime &&
    (match st.loadingTime with | none => false | some t => decide (t ≤ screenSlowMs))

/-- The `onConnectionChange` listener of `ConnectionManagerWrapper`: show the
connection-error screen only when `isInitialAppLoad()` holds and the status
is disconnected or slower than the secondary 5000 ms threshold; return to the
webview when connected with a truthy loading time within the threshold;
otherwise leave the screen unchanged.  (The listener also mirrors
`status.isConnected` into local state; that field is not part of the screen.) -/
def onConnectionChange (isInitialLoad : Bool) (st : ConnectionStatus)
    (screen : ScreenType) : ScreenType :=
  if isInitialLoad && (!st.isConnected || slowBeyondSecondary st.loadingTime) then
    ScreenType.connectionError
  else if goodWithinSecondary st then
    ScreenType.webview
  else
    screen

/-- Outcome of the `fetch` promise of the retry probe, when it settles:
`ok` (`response.ok`), `notOk` (resolved, non-2xx `response.status`), or
`rejected` (network failure). -/
inductive FetchOutcome
  | ok
  | notOk (status : Nat)
  | rejected
  deriving DecidableEq, Repr

/-- Timeout of the retry probe race: `setTimeout(..., 3000)`. -/
def retryTimeoutMs : Nat := 3000

/-- Outcome of `Promise.race([fetchPromise, timeoutPromise])` as observed by
`handleTryAgain`: a response (ok or not), or a rejection (network failure or
the timeout's `Request timeout` error). -/
inductive ProbeOutcome
  | respOk
  | respNotOk (status : Nat)
  | failed
  deriving DecidableEq, Repr

/-- The race: if the fetch settles strictly before the 3000 ms timer its
outcome wins; a fetch that settles later, or never (`none`), loses to the
timeout rejection. -/
def raceProbe : Option (Nat × FetchOutcome) → ProbeOutcome
  | none => ProbeOutcome.failed
  | some (t, f) =>
    if t < retryTimeoutMs then
      match f with
      | FetchOutcome.ok => ProbeOutcome.respOk
      | FetchOutcome.notOk c => ProbeOutcome.respNotOk c
      | FetchOutcome.rejected => ProbeOutcome.failed
    else ProbeOutcome.failed

/-- Effects of one `handleTryAgain` run: the value passed to
`setShouldShowErrorOnTimeout` if called, whether `connectionMonitor.reset()`
ran, the resulting screen, whether `onWebViewReload` was requested, and the
final `isRetrying` flag (always cleared in `finally`). -/
structure RetryResult where
  setShouldShowErrorOnTimeout : Option Bool
  monitorReset : Bool
  screen : ScreenType
  reloadRequested : Bool
  isRetryingFinal : Bool
  deriving DecidableEq, Repr

/-- `handleTryAgain`, as a function of the race outcome and the current
screen: on an ok response re-enable the automatic-error timeout, reset the
monitor, show the webview and request a reload; on a non-ok response or any
rejection/timeout change nothing (the screen stays as it was). -/
def handleTryAgain (probe : ProbeOutcome) (screen : ScreenType) : RetryResult :=
  match probe with
  | ProbeOutcome.respOk =>
    { setShouldShowErrorOnTimeout := some true, monitorReset := true,
      screen := ScreenType.webview, reloadRequested := true, isRetryingFinal := false }
  | ProbeOutcome.respNotOk _ =>
    { setShouldShowErrorOnTimeout := none, monitorReset := false,
      screen := screen, reloadRequested := false, isRetryingFinal := false }
  | ProbeOutcome.failed =>
    { setShouldShowErrorOnTimeout := none, monitorReset := false,
      screen := screen, reloadRequested := false, isRetryingFinal := false }

/-- The effects of a retry whose probe does not succeed: nothing is
reconfigured, nothing is reset, no reload is requested, the screen stays. -/
def retryNoEffects (screen : ScreenType) : RetryResult :=
  { setShouldShowErrorOnTimeout := none, monitorReset := false,
    screen := screen, reloadRequested := false, isRetryingFinal := false }

/-- The effects of a retry whose probe succeeds: re-enable
automatic-error-on-timeout, reset the monitor, show the webview, request a
renderer reload. -/
def retrySuccessEffects : RetryResult :=
  { setShouldShowErrorOnTimeout := some true, monitorReset := true,
    screen := ScreenType.webview, reloadRequested := true, isRetryingFinal := false }

/-- `url.includes(pat)`. -/
def strIncludes (s pat : String) : Bool :=
  pat.isEmpty || decide (2 ≤ (s.splitOn pat).length)

/-- `AppConstants.allowedUrls`. -/
def allowedUrls : List String :=
  ["https://g21z9.azvmotors.kz",
   "https://securepayments.fortebank.com",
   "192.168.0.112:3000",
   "195.93.152.69:3001",
   "192.168.0.167:3000",
   "192.168.0.170:3000",
   "192.168.0.13:3000",
   "172.20.10.2:3000",
   "https://azv-webview.vercel.app/",
   "192.168.0.166:3000",
   "192.168.0.11:3000",
   "192.168.8.85:3000",
   "172.20.10.5:3000",
   "localhost:3000",
   "127.0.0.1:3000"]

/-- `AppConstants.allowedProtocols`. -/
def allowedProtocols : List String :=
  ["http://172.20.10.5:3000",
   "http://192.168.0.11:3000",
   "http://localhost:3000",
   "http://127.0.0.1:3000"]

/-- `AppConstants.specialSchemes`. -/
def specialSchemes : List String :=
  ["tel:", "mailto:", "sms:", "whatsapp:", "https://t.me/", "tg://"]

/-- `AppConstants.isAllowedUrl`. -/
def isAllowedUrl (url : String) : Bool :=
  allowedUrls.any (fun u => strIncludes url u) ||
    allowedProtocols.any (fun p => url.startsWith p)

/-- `AppConstants.isSpecialScheme`. -/
def isSpecialScheme (url : String) : Bool :=
  specialSchemes.any (fun sch => url.startsWith sch)

/-- The global `connectionManager` handle as read by the navigation guard:
its `isConnected` and `isOnErrorScreen` fields. -/
structure ConnMgr where
  isConnected : Bool
  isOnErrorScreen : Bool
  deriving DecidableEq, Repr

/-- Environment of `handleNavigationRequest`: the optional process-wide
`(global as any).connectionManager` handle, and the outcome of the logging
prelude (`urlService.formatUrlForLogging` inside `console.log`), the one
step of the guarded body that can throw. -/
structure NavEnv where
  connectionManager : Option ConnMgr
  preludeStep : Except String Unit

/-- Result of `handleNavigationRequest`: the returned boolean and whether
`connectionManager.showConnectionError()` was invoked. -/
structure NavOutcome where
  allow : Bool
  showedConnectionError : Bool
  deriving DecidableEq, Repr

/-- The URL-classification tail of `handleNavigationRequest`: special schemes
are handled asynchronously and blocked; allow-listed URLs, the Forte Bank
host, and payment-result redirects are allowed; everything else opens in an
external browser and is blocked. -/
def navigationDecision (url : String) : NavOutcome :=
  if isSpecialScheme url = true then { allow := false, showedConnectionError := false }
  else if isAllowedUrl url = true then { allow := true, showedConnectionError := false }
  else if strIncludes url "securepayments.fortebank.com" = true then
    { allow := true, showedConnectionError := false }
  else if (strIncludes url "payment=" &&
      (strIncludes url "success" || strIncludes url "failed" ||
        strIncludes url "declined")) = true then
    { allow := true, showedConnectionError := false }
  else { allow := false, showedConnectionError := false }

/-- The `try`-block body of `handleNavigationRequest`: run the logging
prelude, then block navigation (showing the connection-error screen) when the
global handle exists, reports no connection and the error screen is active;
otherwise classify the URL. -/
def handleNavigationRequestBody (env : NavEnv) (url : String) :
    Except String NavOutcome :=
  match env.preludeStep with
  | Except.error e => Except.error e
  | Except.ok _ =>
    match env.connectionManager with
    | some cm =>
      if (!cm.isConnected && cm.isOnErrorScreen) = true then
        Except.ok { allow := false, showedConnectionError := true }
      else
        Except.ok (navigationDecision url)
    | none => Except.ok (navigationDecision url)

/-- `handleNavigationRequest`: the body wrapped in `try/catch` — any thrown
error is swallowed and navigation is blocked. -/
def handleNavigationRequest (env : NavEnv) (url : String) : NavOutcome :=
  match handleNavigationRequestBody env url with
  | Except.ok r => r
  | Except.error _ => { allow := false, showedConnectionError := false }

/-! ## Helper lemmas about `safeReload` -/

/-- Inside the debounce window `safeReload` is a no-op. -/
theorem safeReload_drop (hard : Bool) (now : Nat) (s : SupState)
    (h : now < s.lastReload + debounceMs) : safeReload hard now s = (s, []) := by
  have hc : now - s.lastReload < debounceMs := by
    unfold debounceMs at *
    omega
  simp [safeReload, hc]

/-- An accepted non-forced request below the escalation threshold, with the
renderer reference present, performs a soft in-place reload. -/
theorem safeReload_soft (now : Nat) (s : SupState)
    (hacc : s.lastReload + debounceMs ≤ now)
    (hatt : s.reloadAttempts + 1 < escalationThreshold)
    (hp : s.webViewPresent = true) :
    safeReload false now s =
      ({ s with lastReload := now, reloadAttempts := s.reloadAttempts + 1, isLoading := true }, [Cmd.reloadInPlace]) := by
  have hc : ¬ (now - s.lastReload < debounceMs) := by
    unfold debounceMs at *
    omega
  have hb : ¬ (escalationThreshold ≤ s.reloadAttempts + 1) := by omega
  simp [safeReload, hc, hb, softReload, hp]

/-- An accepted forced request, or an accepted request reaching the
escalation threshold, performs a hard remount and zeroes the counter. -/
theorem safeReload_hard (hard : Bool) (now : Nat) (s : SupState)
    (hacc : s.lastReload + debounceMs ≤ now)
    (h : hard = true ∨ escalationThreshold ≤ s.reloadAttempts + 1) :
    safeReload hard now s =
      ({ s with lastReload := now, reloadAttempts := 0, isLoading := true, webKey := s.webKey + 1 }, [Cmd.recreateSurface]) := by
  have hc : ¬ (now - s.lastReload < debounceMs) := by
    unfold debounceMs at *
    omega
  rcases h with h | h
  · subst h
    simp [safeReload, hc, hardRemount]
  · have hb : escalationThreshold ≤ s.reloadAttempts + 1 := h
    simp [safeReload, hc, hb, hardRemount]

/-- `safeReload` never issues the fallback-screen command. -/
theorem safeReload_no_screen_cmd (hard : Bool) (now : Nat) (s : SupState) :
    Cmd.showConnectionError ∉ (safeReload hard now s).2 := by
  unfold safeReload softReload hardRemount
  dsimp only
  split_ifs <;> simp

/-! ## Claim theorems -/

/-- Claim C1 (amended): a recovery request routed through `safeReload` —
a soft request, the forced-hard content-process-terminate signal, an HTTP
status event, or a heartbeat-timeout verdict — that arrives when fewer than
1500 ms have elapsed since the last accepted recovery action is dropped with
no state change and no renderer command.  (Render-process-gone signals
bypass `safeReload` and are not debounced; see the counterexample.) -/
theorem claim_C1 (s : SupState) (hard : Bool) (status : Option Int)
    (before now : Nat) (h : now < s.lastReload + debounceMs) :
    step s (Event.request hard now) = (s, []) ∧
    step s (Event.contentTerminate now) = (s, []) ∧
    step s (Event.httpStatus status now) = (s, []) ∧
    step s (Event.hbTimeout before now) = (s, []) := by
  refine ⟨safeReload_drop hard now s h, safeReload_drop true now s h, ?_, ?_⟩
  · cases status with
    | none => rfl
    | some c =>
      unfold step onHttpError
      dsimp only
      split_ifs with hc
      · exact safeReload_drop false now s h
      · rfl
  · unfold step heartbeatTimeout
    dsimp only
    split_ifs with hc
    · exact safeReload_drop false now s h
    · rfl

/-- Counterexample to claim C1 as stated: starting from the initial state, a
soft request accepted at t = 1500 is followed 100 ms later (inside the 1500 ms
debounce window) by a render-process-gone crash signal; the crash signal is
not dropped — it changes the state (the surface key advances) and issues a
renderer command. -/
theorem claim_C1_counterexample :
    (step ⟨0, 0, 0, 0, false, true⟩ (Event.request false 1500)).1 = ⟨1500, 1, 0, 0, true, true⟩ ∧
    1600 < 1500 + debounceMs ∧
    step ⟨1500, 1, 0, 0, true, true⟩ (Event.renderGone true 1600) =
      (⟨1500, 1, 1, 0, true, true⟩, [Cmd.recreateSurface]) := by
  refine ⟨?_, by decide, ?_⟩ <;> decide

/-- Claim C2 (amended): starting from soft-attempt count 0 with the renderer
reference present, three consecutive non-forced recovery requests, each at
least 1500 ms after the previous accepted action and with no intervening
load completion, perform soft, soft, hard; the soft-attempt counter is 0
after the third.  (With a null renderer reference even the first accepted
request falls back to a hard remount; see the counterexample.) -/
theorem claim_C2 (s : SupState) (t1 t2 t3 : Nat)
    (h0 : s.reloadAttempts = 0) (hp : s.webViewPresent = true)
    (h1 : s.lastReload + debounceMs ≤ t1) (h2 : t1 + debounceMs ≤ t2)
    (h3 : t2 + debounceMs ≤ t3) :
    (safeReload false t1 s).2 = [Cmd.reloadInPlace] ∧
    (safeReload false t2 (safeReload false t1 s).1).2 = [Cmd.reloadInPlace] ∧
    (safeReload false t3 (safeReload false t2 (safeReload false t1 s).1).1).2 = [Cmd.recreateSurface] ∧
    (safeReload false t3 (safeReload false t2 (safeReload false t1 s).1).1).1.reloadAttempts = 0 := by
  obtain ⟨lr, ra, wk, pc, il, wp⟩ := s
  dsimp only at h0 hp h1
  subst h0
  subst hp
  have e1 := safeReload_soft t1 ⟨lr, 0, wk, pc, il, true⟩ h1
    (by dsimp only; unfold escalationThreshold; omega) rfl
  rw [e1]
  dsimp only
  have e2 := safeReload_soft t2 ⟨t1, 0 + 1, wk, pc, true, true⟩ h2
    (by dsimp only; unfold escalationThreshold; omega) rfl
  rw [e2]
  dsimp only
  have e3 := safeReload_hard false t3 ⟨t2, 0 + 1 + 1, wk, pc, true, true⟩ h3
    (Or.inr (by dsimp only; unfold escalationThreshold; omega))
  rw [e3]
  exact ⟨rfl, rfl, rfl, rfl⟩

/-- Counterexample to claim C2 as stated: with a null renderer reference the
first accepted non-forced request from counter 0 already performs a hard
remount (`softReload` falls back to `hardRemount`, issuing
`recreateSurface`), so "the first two requests perform soft reloads" fails
there. -/
theorem claim_C2_counterexample :
    (safeReload false 1500 ⟨0, 0, 0, 0, false, false⟩).2 = [Cmd.recreateSurface] ∧
    (safeReload false 1500 ⟨0, 0, 0, 0, false, false⟩).2 ≠ [Cmd.reloadInPlace] := by
  refine ⟨rfl, by decide⟩

/-- Claim C3 (amended): on a host foreground transition with the renderer
reference present, the heartbeat probe injects exactly one message and
snapshots the acknowledgment counter (with a null reference it injects
nothing; see the counterexample); the verdict timer lasts 1200 ms; when it
fires, an advanced counter means no action, an unchanged counter means a
non-forced `safeReload`; and from a fresh state (attempt count 0, renderer
present, debounce window clear) the resulting action is the soft in-place
reload. -/
theorem claim_C3 (s : SupState) (before now : Nat) :
    (s.webViewPresent = true → appStateActiveProbe s = (s, s.pongCounter, [Cmd.injectScript])) ∧
    heartbeatTimerMs = 1200 ∧
    (s.pongCounter ≠ before → heartbeatTimeout before now s = (s, [])) ∧
    heartbeatTimeout s.pongCounter now s = safeReload false now s ∧
    (s.reloadAttempts = 0 → s.webViewPresent = true → s.lastReload + debounceMs ≤ now →
      (heartbeatTimeout s.pongCounter now s).2 = [Cmd.reloadInPlace]) := by
  refine ⟨?_, rfl, ?_, by simp [heartbeatTimeout], ?_⟩
  · intro hp
    simp [appStateActiveProbe, hp]
  · intro hne
    simp [heartbeatTimeout, hne]
  · intro h0 hpres hacc
    have hs := safeReload_soft now s hacc (by rw [h0]; decide) hpres
    simp [heartbeatTimeout, hs]

/-- Counterexample to claim C3 as stated: on a foreground transition with a
null renderer reference the probe injects no liveness message at all (the
source guards the injection with the optional chain
`webViewRef.current?.injectJavaScript`). -/
theorem claim_C3_counterexample :
    (appStateActiveProbe ⟨0, 0, 0, 0, false, false⟩).2.2 = [] ∧
    (appStateActiveProbe ⟨0, 0, 0, 0, false, false⟩).2.2 ≠ [Cmd.injectScript] := by
  refine ⟨rfl, by decide⟩

/-- Claim C4 (amended): after every hard remount issued through `safeReload`
(forced, or at the escalation threshold) the soft-attempt counter is 0, and
after every successful load completion the counter is 0.  (A hard remount
issued directly by the render-process-gone crash handler does not reset the
counter; see the counterexample.) -/
theorem claim_C4 (s : SupState) (hard : Bool) (now : Nat)
    (hacc : s.lastReload + debounceMs ≤ now)
    (h : hard = true ∨ escalationThreshold ≤ s.reloadAttempts + 1) :
    (safeReload hard now s).1.reloadAttempts = 0 ∧
    Cmd.recreateSurface ∈ (safeReload hard now s).2 ∧
    (handleWebViewLoadEnd s).1.reloadAttempts = 0 := by
  rw [safeReload_hard hard now s hacc h]
  exact ⟨rfl, by simp, rfl⟩

/-- Counterexample to claim C4 as stated: from the reachable state after one
accepted soft request (counter 1), a render-process-gone crash signal issues
a hard remount, yet the soft-attempt counter afterward is 1, not 0. -/
theorem claim_C4_counterexample :
    (step ⟨0, 0, 0, 0, false, true⟩ (Event.request false 1500)).1 = ⟨1500, 1, 0, 0, true, true⟩ ∧
    Cmd.recreateSurface ∈ (step ⟨1500, 1, 0, 0, true, true⟩ (Event.renderGone true 1600)).2 ∧
    (step ⟨1500, 1, 0, 0, true, true⟩ (Event.renderGone true 1600)).1.reloadAttempts = 1 := by
  refine ⟨?_, ?_, ?_⟩ <;> decide

/-- Claim C5: an HTTP status event with status ≥ 500 or status 0 performs
exactly one non-forced recovery request (it is exactly a `safeReload false`
call, hence still subject to the debounce); any other status — in particular
every 4xx — performs no recovery request, and no status ever issues a
fallback-screen command. -/
theorem claim_C5 (c : Int) (now : Nat) (s : SupState) :
    ((500 ≤ c ∨ c = 0) → onHttpError (some c) now s = safeReload false now s) ∧
    (¬ (500 ≤ c ∨ c = 0) → onHttpError (some c) now s = (s, [])) ∧
    onHttpError none now s = (s, []) ∧
    Cmd.showConnectionError ∉ (onHttpError (some c) now s).2 := by
  refine ⟨?_, ?_, rfl, ?_⟩
  · intro h
    simp [onHttpError, h]
  · intro h
    simp [onHttpError, h]
  · unfold onHttpError
    dsimp only
    split_ifs with hc
    · exact safeReload_no_screen_cmd false now s
    · simp

/-- The slow-side trigger of the listener holds exactly when a loading time
is present and exceeds the secondary 5000 ms threshold. -/
theorem slowBeyondSecondary_iff (o : Option Nat) :
    slowBeyondSecondary o = true ↔ ∃ t, o = some t ∧ screenSlowMs < t := by
  cases o with
  | none => simp [slowBeyondSecondary, truthyTime]
  | some t =>
    simp [slowBeyondSecondary, truthyTime, screenSlowMs]
    omega

/-- Claim C6: the listener moves the screen to ConnectionError only while the
initial-load flag is true and the status reports a disconnect or a loading
time beyond the secondary 5000 ms threshold; when the flag is false no status
change can move the screen into ConnectionError; and conversely, with the
flag true, a disconnect or an over-threshold loading time always yields
ConnectionError. -/
theorem claim_C6 (flag : Bool) (st : ConnectionStatus) (scr : ScreenType) :
    (flag = false → scr ≠ ScreenType.connectionError →
      onConnectionChange flag st scr ≠ ScreenType.connectionError) ∧
    (onConnectionChange flag st scr = ScreenType.connectionError →
      scr = ScreenType.connectionError ∨
        (flag = true ∧ (st.isConnected = false ∨ ∃ t, st.loadingTime = some t ∧ screenSlowMs < t))) ∧
    (flag = true → (st.isConnected = false ∨ ∃ t, st.loadingTime = some t ∧ screenSlowMs < t) →
      onConnectionChange flag st scr = ScreenType.connectionError) := by
  have key : onConnectionChange flag st scr = ScreenType.connectionError →
      scr = ScreenType.connectionError ∨
        (flag = true ∧ (st.isConnected = false ∨ ∃ t, st.loadingTime = some t ∧ screenSlowMs < t)) := by
    intro h
    unfold onConnectionChange at h
    by_cases hc : (flag && (!st.isConnected || slowBeyondSecondary st.loadingTime)) = true
    · right
      simp only [Bool.and_eq_true, Bool.or_eq_true, Bool.not_eq_true'] at hc
      obtain ⟨hflag, hx⟩ := hc
      refine ⟨hflag, ?_⟩
      rcases hx with hy | hy
      · exact Or.inl hy
      · exact Or.inr ((slowBeyondSecondary_iff st.loadingTime).mp hy)
    · rw [if_neg hc] at h
      split_ifs at h with hg
      exact Or.inl h
  refine ⟨?_, key, ?_⟩
  · intro hf hscr hres
    rcases key hres with h1 | ⟨h2, _⟩
    · exact hscr h1
    · rw [hf] at h2
      exact absurd h2 (by decide)
  · intro hflag hcond
    subst hflag
    rcases hcond with hy | hy
    · simp [onConnectionChange, hy]
    · have hs : slowBeyondSecondary st.loadingTime = true :=
        (slowBeyondSecondary_iff st.loadingTime).mpr hy
      simp [onConnectionChange, hs]

/-- Claim C7: the manual retry races the reachability probe against a 3000 ms
timeout; a fetch that resolves ok strictly within the timeout produces all
four success effects (re-enable automatic-error-on-timeout, full monitor
reset, screen Normal, renderer reload); a non-ok response, a rejected fetch,
a fetch slower than the timeout, or a fetch that never settles produces none
of them and leaves the screen where it was. -/
theorem claim_C7 (t : Nat) (f : FetchOutcome) (scr : ScreenType) :
    retryTimeoutMs = 3000 ∧
    (t < retryTimeoutMs → f = FetchOutcome.ok →
      handleTryAgain (raceProbe (some (t, f))) scr = retrySuccessEffects) ∧
    (∀ c, f = FetchOutcome.notOk c →
      handleTryAgain (raceProbe (some (t, f))) scr = retryNoEffects scr) ∧
    (f = FetchOutcome.rejected →
      handleTryAgain (raceProbe (some (t, f))) scr = retryNoEffects scr) ∧
    (retryTimeoutMs ≤ t →
      handleTryAgain (raceProbe (some (t, f))) scr = retryNoEffects scr) ∧
    handleTryAgain (raceProbe none) scr = retryNoEffects scr := by
  refine ⟨rfl, ?_, ?_, ?_, ?_, rfl⟩
  · intro ht hf
    subst hf
    simp [raceProbe, ht, handleTryAgain, retrySuccessEffects]
  · intro c hf
    subst hf
    unfold raceProbe
    dsimp only
    split_ifs <;> rfl
  · intro hf
    subst hf
    unfold raceProbe
    dsimp only
    split_ifs <;> rfl
  · intro ht
    have hn : ¬ t < retryTimeoutMs := by omega
    unfold raceProbe
    dsimp only
    rw [if_neg hn]
    rfl

/-- Claim C8: every acknowledgment (`pong`) message increments the
acknowledgment counter by exactly one, whatever token it carries, and no
message delivery ever decreases the counter, so the counter is monotonically
non-decreasing across all deliveries. -/
theorem claim_C8 (s : SupState) (token : String) (m : RawMessage) :
    (handleMessage s (RawMessage.pong token)).1.pongCounter = s.pongCounter + 1 ∧
    s.pongCounter ≤ (handleMessage s m).1.pongCounter := by
  refine ⟨rfl, ?_⟩
  cases m <;> dsimp [handleMessage] <;> omega

/-- Claim C9: when a soft reload is requested while the renderer reference
is null, the controller performs a hard remount instead; consequently every
accepted (non-debounced) recovery request issues some renderer recovery
command — an in-place reload or a surface recreation. -/
theorem claim_C9 (s : SupState) (hard : Bool) (now : Nat) :
    (s.webViewPresent = false →
      softReload s = ({ s with isLoading := true, webKey := s.webKey + 1 }, [Cmd.recreateSurface])) ∧
    (s.lastReload + debounceMs ≤ now →
      (safeReload hard now s).2 = [Cmd.reloadInPlace] ∨
        (safeReload hard now s).2 = [Cmd.recreateSurface]) := by
  constructor
  · intro hp
    simp [softReload, hp, hardRemount]
  · intro hacc
    have hc : ¬ (now - s.lastReload < debounceMs) := by
      unfold debounceMs at *
      omega
    unfold safeReload softReload hardRemount
    dsimp only
    rw [if_neg hc]
    split_ifs with hcond hpres
    · exact Or.inr rfl
    · exact Or.inl rfl
    · exact Or.inr rfl

/-- Claim C10: when the process-wide connection-manager handle exists,
reports no connection and the error screen active, `handleNavigationRequest`
blocks the navigation and requests the connection-error screen (provided the
guarded body reaches the check, i.e. the logging prelude does not throw);
and the function is total under exceptions — whenever the guarded body
throws, the `catch` returns `false` instead of propagating. -/
theorem claim_C10 (env : NavEnv) (url : String) (cm : ConnMgr) :
    (env.preludeStep = Except.ok () → env.connectionManager = some cm →
      cm.isConnected = false → cm.isOnErrorScreen = true →
      handleNavigationRequest env url = { allow := false, showedConnectionError := true }) ∧
    (∀ e, handleNavigationRequestBody env url = Except.error e →
      (handleNavigationRequest env url).allow = false) := by
  constructor
  · intro hok hcm hc hscr
    unfold handleNavigationRequest handleNavigationRequestBody
    rw [hok, hcm]
    simp [hc, hscr]
  · intro e he
    unfold handleNavigationRequest
    rw [he]

/-! ## Witnesses: each hypothesized claim theorem evaluated at a concrete input -/

/-- Witness for claim C1 at a concrete state: 100 ms after an accepted
action, all four `safeReload`-routed events are dropped. -/
theorem claim_C1_witness :
    1600 < 1500 + debounceMs ∧
    step ⟨1500, 1, 0, 0, true, true⟩ (Event.request true 1600) = (⟨1500, 1, 0, 0, true, true⟩, []) ∧
    step ⟨1500, 1, 0, 0, true, true⟩ (Event.contentTerminate 1600) = (⟨1500, 1, 0, 0, true, true⟩, []) ∧
    step ⟨1500, 1, 0, 0, true, true⟩ (Event.httpStatus (some 503) 1600) = (⟨1500, 1, 0, 0, true, true⟩, []) ∧
    step ⟨1500, 1, 0, 0, true, true⟩ (Event.hbTimeout 0 1600) = (⟨1500, 1, 0, 0, true, true⟩, []) :=
  ⟨by decide, claim_C1 ⟨1500, 1, 0, 0, true, true⟩ true (some 503) 0 1600 (by decide)⟩

/-- Witness for claim C2 at the scenario of the spec: requests at t = 1500,
3000, 4500 from the initial state give soft, soft, hard and a zero counter. -/
theorem claim_C2_witness :
    (safeReload false 1500 ⟨0, 0, 0, 0, false, true⟩).2 = [Cmd.reloadInPlace] ∧
    (safeReload false 3000 (safeReload false 1500 ⟨0, 0, 0, 0, false, true⟩).1).2 = [Cmd.reloadInPlace] ∧
    (safeReload false 4500 (safeReload false 3000 (safeReload false 1500 ⟨0, 0, 0, 0, false, true⟩).1).1).2 = [Cmd.recreateSurface] ∧
    (safeReload false 4500 (safeReload false 3000 (safeReload false 1500 ⟨0, 0, 0, 0, false, true⟩).1).1).1.reloadAttempts = 0 :=
  claim_C2 ⟨0, 0, 0, 0, false, true⟩ 1500 3000 4500 rfl rfl (by decide) (by decide) (by decide)

/-- Witness for claim C3 at a concrete fresh state: the probe injects once;
an advanced counter (7 ≠ 0) yields no action; an unchanged counter yields the
soft in-place reload. -/
theorem claim_C3_witness :
    appStateActiveProbe ⟨0, 0, 0, 0, false, true⟩ = (⟨0, 0, 0, 0, false, true⟩, 0, [Cmd.injectScript]) ∧
    heartbeatTimeout 7 2000 ⟨0, 0, 0, 0, false, true⟩ = (⟨0, 0, 0, 0, false, true⟩, []) ∧
    (heartbeatTimeout 0 2000 ⟨0, 0, 0, 0, false, true⟩).2 = [Cmd.reloadInPlace] :=
  ⟨(claim_C3 ⟨0, 0, 0, 0, false, true⟩ 7 2000).1 rfl,
   (claim_C3 ⟨0, 0, 0, 0, false, true⟩ 7 2000).2.2.1 (by decide),
   (claim_C3 ⟨0, 0, 0, 0, false, true⟩ 7 2000).2.2.2.2 rfl rfl (by decide)⟩

/-- Witness for claim C4 at a concrete state: a forced request at t = 1500
from counter 2 hard-remounts and zeroes the counter; load completion zeroes
the counter. -/
theorem claim_C4_witness :
    (safeReload true 1500 ⟨0, 2, 0, 0, false, true⟩).1.reloadAttempts = 0 ∧
    Cmd.recreateSurface ∈ (safeReload true 1500 ⟨0, 2, 0, 0, false, true⟩).2 ∧
    (handleWebViewLoadEnd ⟨0, 2, 0, 0, false, true⟩).1.reloadAttempts = 0 :=
  claim_C4 ⟨0, 2, 0, 0, false, true⟩ true 1500 (by decide) (Or.inl rfl)

/-- Witness for claim C5 at concrete statuses: 503 and 0 trigger the
non-forced request, 404 does nothing. -/
theorem claim_C5_witness :
    onHttpError (some 503) 1500 ⟨0, 0, 0, 0, false, true⟩ = safeReload false 1500 ⟨0, 0, 0, 0, false, true⟩ ∧
    onHttpError (some 404) 1500 ⟨0, 0, 0, 0, false, true⟩ = (⟨0, 0, 0, 0, false, true⟩, []) ∧
    onHttpError (some 0) 1500 ⟨0, 0, 0, 0, false, true⟩ = safeReload false 1500 ⟨0, 0, 0, 0, false, true⟩ :=
  ⟨(claim_C5 503 1500 ⟨0, 0, 0, 0, false, true⟩).1 (Or.inl (by decide)),
   (claim_C5 404 1500 ⟨0, 0, 0, 0, false, true⟩).2.1 (by decide),
   (claim_C5 0 1500 ⟨0, 0, 0, 0, false, true⟩).1 (Or.inr rfl)⟩

/-- Witness for claim C6 at concrete statuses: with the flag true a
disconnect and a 6000 ms load both surface the error screen; with the flag
false a disconnect does not. -/
theorem claim_C6_witness :
    onConnectionChange true ⟨false, none⟩ ScreenType.webview = ScreenType.connectionError ∧
    onConnectionChange true ⟨true, some 6000⟩ ScreenType.webview = ScreenType.connectionError ∧
    onConnectionChange false ⟨false, none⟩ ScreenType.webview ≠ ScreenType.connectionError :=
  ⟨(claim_C6 true ⟨false, none⟩ ScreenType.webview).2.2 rfl (Or.inl rfl),
   (claim_C6 true ⟨true, some 6000⟩ ScreenType.webview).2.2 rfl (Or.inr ⟨6000, rfl, by decide⟩),
   (claim_C6 false ⟨false, none⟩ ScreenType.webview).1 rfl (by decide)⟩

/-- Witness for claim C7 at concrete probes: an ok response at 1000 ms gives
all success effects; a 500 response at 1000 ms and an ok response at 5000 ms
(after the timeout) give none. -/
theorem claim_C7_witness :
    handleTryAgain (raceProbe (some (1000, FetchOutcome.ok))) ScreenType.connectionError = retrySuccessEffects ∧
    handleTryAgain (raceProbe (some (1000, FetchOutcome.notOk 500))) ScreenType.connectionError = retryNoEffects ScreenType.connectionError ∧
    handleTryAgain (raceProbe (some (5000, FetchOutcome.ok))) ScreenType.connectionError = retryNoEffects ScreenType.connectionError :=
  ⟨(claim_C7 1000 FetchOutcome.ok ScreenType.connectionError).2.1 (by decide) rfl,
   (claim_C7 1000 (FetchOutcome.notOk 500) ScreenType.connectionError).2.2.1 500 rfl,
   (claim_C7 5000 FetchOutcome.ok ScreenType.connectionError).2.2.2.2.1 (by decide)⟩

/-- Witness for claim C9 at a concrete state with a null renderer reference:
the soft reload becomes a hard remount, and the accepted request still
issues a command. -/
theorem claim_C9_witness :
    softReload ⟨0, 0, 0, 0, false, false⟩ = (⟨0, 0, 1, 0, true, false⟩, [Cmd.recreateSurface]) ∧
    ((safeReload false 1500 ⟨0, 0, 0, 0, false, false⟩).2 = [Cmd.reloadInPlace] ∨
      (safeReload false 1500 ⟨0, 0, 0, 0, false, false⟩).2 = [Cmd.recreateSurface]) :=
  ⟨(claim_C9 ⟨0, 0, 0, 0, false, false⟩ false 1500).1 rfl,
   (claim_C9 ⟨0, 0, 0, 0, false, false⟩ false 1500).2 (by decide)⟩

/-- Witness for claim C10 at a concrete environment: disconnected with the
error screen active blocks navigation and requests the error screen; a
throwing prelude makes the guard return false. -/
theorem claim_C10_witness :
    handleNavigationRequest ⟨some ⟨false, true⟩, Except.ok ()⟩ "https://example.com" = { allow := false, showedConnectionError := true } ∧
    (handleNavigationRequest ⟨some ⟨false, true⟩, Except.error "boom"⟩ "https://example.com").allow = false :=
  ⟨(claim_C10 ⟨some ⟨false, true⟩, Except.ok ()⟩ "https://example.com" ⟨false, true⟩).1 rfl rfl rfl rfl,
   (claim_C10 ⟨some ⟨false, true⟩, Except.error "boom"⟩ "https://example.com" ⟨false, true⟩).2 "boom" rfl⟩

end AZV
